import Mathlib

/-!
Shallow embedding of the readthedocs projects data model
(readthedocs/projects/models.py): the visibility-filter manager, the
save lifecycle, the path accessors, conf.py resolution, default
version/branch selection and the subproject relationship operations.
External collaborators (django auth/guardian, the vcs backend registry,
django slugify, the filesystem searches) are passed in as explicit data.
-/

deriving instance DecidableEq for Except

namespace RTD

/-- A row of the external builds.Version collaborator, as consumed by
Project.get_default_version: only the slug and the active flag are read. -/
structure Version where
  slug : String
  active : Bool
deriving DecidableEq

/-- The Project model fields used by the embedded operations. -/
structure Project where
  id : Nat
  name : String
  slug : String
  privacy_level : String
  skip : Bool
  default_version : String
  default_branch : Option String
  conf_py_file : String
  repo_type : String
  versions : List Version
deriving DecidableEq

namespace constants

/-- Privacy level constant from projects.constants (module not in the
sources; the tier names public, protected, private follow the spec). -/
def PUBLIC : String := "public"

/-- Privacy level constant from projects.constants. -/
def PROTECTED : String := "protected"

/-- Privacy level constant from projects.constants. -/
def PRIVATE : String := "private"

end constants

/-- A django auth user as seen by the manager: authentication state, the
global projects.view_project permission (user.has_perm), and the
per-object view grants held via django-guardian, recorded as the ids of
the granted projects. -/
structure User where
  is_authenticated : Bool
  has_global_view_perm : Bool
  granted_view : List Nat
deriving DecidableEq

/-- guardian.shortcuts.get_objects_for_user for projects.view_project:
the stored projects on which the user holds a per-object grant. -/
def get_objects_for_user (u : User) (db : List Project) : List Project :=
  db.filter (fun p => u.granted_view.contains p.id)

/-- ProjectManager._filter_queryset. The db list stands for
Project.objects.  A basestring privacy_level is normalised by the source
into a one-element tuple, so the embedding takes the tuple (as a list)
directly.  Note that the source returns the queryset before the
skip=False restriction when no user is given. -/
def _filter_queryset (db : List Project) (user : Option User)
    (privacy_level : List String) : List Project :=
  let queryset := db.filter (fun p => privacy_level.contains p.privacy_level)
  match user with
  | none => queryset
  | some u =>
    let queryset1 := if u.has_global_view_perm then db else queryset
    let queryset2 :=
      if u.is_authenticated then get_objects_for_user u db ++ queryset1
      else queryset1
    queryset2.filter (fun p => p.skip == false)

/-- ProjectManager.public (the extra queryset filter arguments, identity
when absent, are omitted). -/
def public (db : List Project) (user : Option User) : List Project :=
  _filter_queryset db user [constants.PUBLIC]

/-- ProjectManager.protected (protected is a Lean keyword, hence the
prime). -/
def protected' (db : List Project) (user : Option User) : List Project :=
  _filter_queryset db user [constants.PUBLIC, constants.PROTECTED]

/-- ProjectManager.private (private is a Lean keyword, hence the prime). -/
def private' (db : List Project) (user : Option User) : List Project :=
  _filter_queryset db user [constants.PRIVATE]

/-- The failure raised by Project.save when the slug derived from the
name is empty. -/
inductive SaveError
  | slugRequired
deriving DecidableEq

/-- The per-object grant record written by guardian.shortcuts.assign. -/
structure Grant where
  user_id : Nat
  project_id : Nat
deriving DecidableEq

/-- Project.save: when the slug is empty it is derived with slugify (an
external django collaborator, passed as a parameter), raising when the
derived slug is empty; the row is then persisted and a view_project
grant is assigned to every owner (self.users.all(), passed as owner
ids). -/
def save (slugify : String → String) (db : List Project)
    (grants : List Grant) (owners : List Nat) (p : Project) :
    Except SaveError (List Project × List Grant) :=
  let persist : Project → Except SaveError (List Project × List Grant) :=
    fun q =>
      Except.ok (db ++ [q],
        grants ++ owners.map (fun o => { user_id := o, project_id := q.id }))
  if p.slug = "" then
    let derived := slugify p.name
    if derived = "" then Except.error SaveError.slugRequired
    else persist { p with slug := derived }
  else persist p

/-- The django settings values consumed by the path accessors. -/
structure Settings where
  MEDIA_ROOT : String
  MEDIA_URL : String
  DOCROOT : String
deriving DecidableEq

/-- Whether a path starts with a slash (the b.startswith case of posixpath.join). -/
def startsWithSlash (s : String) : Bool := s.data.head? == some '/'

/-- Whether a path ends with a slash (the a.endswith case of posixpath.join). -/
def endsWithSlash (s : String) : Bool := s.data.getLast? == some '/'

/-- posix os.path.join for one extra component. -/
def os_path_join2 (a b : String) : String :=
  if startsWithSlash b then b
  else if a == "" || endsWithSlash a then a ++ b
  else a ++ "/" ++ b

/-- posix os.path.join folded over the remaining components. -/
def os_path_join (a : String) (rest : List String) : String :=
  rest.foldl os_path_join2 a

/-- Project.doc_name: the project name with spaces replaced by
underscores.  The single-character str.replace of the source is embedded as
the equivalent character map. -/
def doc_name (p : Project) : String :=
  String.mk (p.name.data.map (fun c => if c = ' ' then '_' else c))

/-- Project.get_pdf_path. -/
def get_pdf_path (s : Settings) (p : Project) (version_slug : String) : String :=
  os_path_join s.MEDIA_ROOT ["pdf", p.slug, version_slug, p.slug ++ ".pdf"]

/-- Project.get_epub_path. -/
def get_epub_path (s : Settings) (p : Project) (version_slug : String) : String :=
  os_path_join s.MEDIA_ROOT ["epub", p.slug, version_slug, p.slug ++ ".epub"]

/-- Project.get_manpage_path. -/
def get_manpage_path (s : Settings) (p : Project) (version_slug : String) : String :=
  os_path_join s.MEDIA_ROOT ["man", p.slug, version_slug, p.slug ++ ".1"]

/-- Project.get_htmlzip_path. -/
def get_htmlzip_path (s : Settings) (p : Project) (version_slug : String) : String :=
  os_path_join s.MEDIA_ROOT ["htmlzip", p.slug, version_slug, p.slug ++ ".zip"]

/-- Project.get_dash_path: note the filename comes from doc_name, not
from the slug. -/
def get_dash_path (s : Settings) (p : Project) (version_slug : String) : String :=
  os_path_join s.MEDIA_ROOT ["dash", p.slug, version_slug, doc_name p ++ ".tgz"]

/-- Project.doc_path. -/
def doc_path (s : Settings) (p : Project) : String :=
  os_path_join s.DOCROOT [p.slug]

/-- Project.checkout_path. -/
def checkout_path (s : Settings) (p : Project) (version : String) : String :=
  os_path_join (doc_path s p) ["checkouts", version]

/-- The error raised by Project.conf_file when no conf.py is found
(projects.exceptions.ProjectImportError, message Conf File Missing). -/
inductive ProjectImportError
  | confFileMissing
deriving DecidableEq

/-- Python str.find(sub, start) compared against -1: whether sub occurs
in s at a character index at or after start. -/
def py_find_from (s sub : String) (start : Nat) : Bool :=
  (List.range (s.length + 1)).any
    (fun i => decide (start ≤ i) && sub.data.isPrefixOf (s.data.drop i))

/-- Project.conf_file.  The filesystem searches find and full_find are
passed as their result lists.  Outcomes, mirroring the source: an
explicit conf_py_file joined onto the checkout; the single match; for
several matches the first whose path has doc at character index 70 or
later, and None (the implicit fall-through of the source) when no match
qualifies; ProjectImportError when the search yields nothing. -/
def conf_file (s : Settings) (p : Project) (version : String)
    (findRes fullFindRes : List String) :
    Except ProjectImportError (Option String) :=
  if p.conf_py_file != "" then
    Except.ok (some (os_path_join (checkout_path s p version) [p.conf_py_file]))
  else
    let files := if findRes.isEmpty then fullFindRes else findRes
    match files with
    | [] => Except.error ProjectImportError.confFileMissing
    | [f] => Except.ok (some f)
    | _ :: _ :: _ => Except.ok (files.find? (fun f => py_find_from f "doc" 70))

/-- The reading the SPEC gives of the conf.py tie-break (refinement side, for
comparison with py_find_from of the source at start 70): the path
contains doc within the first 70 characters. -/
def spec_doc_within_first_70 (s : String) : Bool :=
  (List.range 70).any (fun i => "doc".data.isPrefixOf (s.data.drop i))

/-- Project.get_default_version. -/
def get_default_version (p : Project) : String :=
  if p.default_version == "latest" then p.default_version
  else
    let version_qs :=
      p.versions.filter (fun v => v.slug == p.default_version && v.active)
    if !version_qs.isEmpty then p.default_version
    else "latest"

/-- A VCS backend as resolved from the backend_cls registry
(vcs_support.backends, an external collaborator): only the fallback
branch is consumed here. -/
structure VcsBackend where
  fallback_branch : String
deriving DecidableEq

/-- The failure of branch resolution for an unregistered repo_type. -/
inductive VcsError
  | unsupportedBackend
deriving DecidableEq

/-- Project.vcs_repo: backend_cls.get(self.repo_type); None when the
repo_type has no registered backend.  The instance built over VCSProject
carries the fallback branch of the backend, which is all get_default_branch
reads from it. -/
def vcs_repo (backend_cls : String → Option VcsBackend) (p : Project) :
    Option VcsBackend :=
  backend_cls p.repo_type

/-- Python truthiness of the nullable default_branch CharField. -/
def py_truthy_str (o : Option String) : Bool :=
  match o with
  | none => false
  | some s => s != ""

/-- Project.get_default_branch: the explicit default_branch when truthy,
otherwise the fallback branch of self.vcs_repo(); reading
fallback_branch off the None returned by vcs_repo for an unregistered
repo_type is the failure, modeled as VcsError.unsupportedBackend. -/
def get_default_branch (backend_cls : String → Option VcsBackend)
    (p : Project) : Except VcsError String :=
  if py_truthy_str p.default_branch then
    Except.ok (p.default_branch.getD "")
  else
    match vcs_repo backend_cls p with
    | none => Except.error VcsError.unsupportedBackend
    | some repo => Except.ok repo.fallback_branch

/-- ProjectRelationship: a parent to child subproject edge, recorded by
project id. -/
structure ProjectRelationship where
  parent : Nat
  child : Nat
deriving DecidableEq

/-- Project.add_subproject: get_or_create on (parent, child); returns
the found or created edge together with the updated edge table. -/
def add_subproject (rels : List ProjectRelationship) (parent child : Nat) :
    ProjectRelationship × List ProjectRelationship :=
  match rels.find? (fun r => r.parent == parent && r.child == child) with
  | some r => (r, rels)
  | none =>
    ({ parent := parent, child := child },
     rels ++ [{ parent := parent, child := child }])

/-- Project.remove_subproject: delete on the filter by (parent, child);
total, a no-op when no such edge exists. -/
def remove_subproject (rels : List ProjectRelationship) (parent child : Nat) :
    List ProjectRelationship :=
  rels.filter (fun r => !(r.parent == parent && r.child == child))

/-- A baseline project record for concrete instances. -/
def baseProject : Project :=
  { id := 0
    name := "Base"
    slug := "base"
    privacy_level := constants.PUBLIC
    skip := false
    default_version := "latest"
    default_branch := none
    conf_py_file := ""
    repo_type := "git"
    versions := [] }

/-- A skipped public project. -/
def skippedPublicProject : Project :=
  { baseProject with id := 1, slug := "skipped", skip := true }

/-- A live public project. -/
def pubProject : Project :=
  { baseProject with id := 2, slug := "pub" }

/-- A live private project. -/
def privProject : Project :=
  { baseProject with
    id := 3
    slug := "priv"
    privacy_level := constants.PRIVATE }

/-- An authenticated user without the global permission who holds a
per-object grant on privProject (id 3), as its owner would after save. -/
def grantedUser : User :=
  { is_authenticated := true
    has_global_view_perm := false
    granted_view := [3] }

/-- Concrete settings for evaluation. -/
def someSettings : Settings :=
  { MEDIA_ROOT := "/media", MEDIA_URL := "/media-url", DOCROOT := "/docs" }

/-- A skipped private project. -/
def skippedPrivProject : Project :=
  { baseProject with
    id := 4
    slug := "skipped-priv"
    skip := true
    privacy_level := constants.PRIVATE }

/-- A filter result is nonempty exactly when some element satisfies the
predicate. -/
theorem filter_isEmpty_eq_false {α : Type} (f : α → Bool) (l : List α) :
    (l.filter f).isEmpty = false ↔ ∃ a ∈ l, f a = true := by
  rw [List.isEmpty_eq_false, Ne, List.filter_eq_nil_iff]
  push_neg
  simp

/-- List.contains agrees with membership for a lawful BEq. -/
theorem contains_iff_mem {α : Type} [BEq α] [LawfulBEq α] {a : α}
    {l : List α} : l.contains a = true ↔ a ∈ l := by
  simp [List.contains_iff_exists_mem_beq]

/-- C1: code-bug evidence.  The claim says that for every user,
including the anonymous one, no project with skip set ever appears in a
Visibility Filter result.  For the anonymous user _filter_queryset
returns the tier queryset before the skip=False restriction, so a
skipped project appears in every tier that matches its privacy level,
contradicting the docstrings of the manager itself (and skip = False). -/
theorem C1_skipped_project_visible_to_anonymous :
    skippedPublicProject.skip = true ∧
    skippedPublicProject ∈ public [skippedPublicProject] none ∧
    skippedPublicProject ∈ protected' [skippedPublicProject] none ∧
    skippedPrivProject.skip = true ∧
    skippedPrivProject ∈ private' [skippedPrivProject] none := by
  decide

/-- C4: get_default_version returns default_version unchanged when it is
the sentinel latest; otherwise it returns default_version exactly when
an active version with that slug exists for the project, and latest when
no such active version exists. -/
theorem C4_get_default_version_spec (p : Project) :
    get_default_version p =
      if p.default_version = "latest" then p.default_version
      else if ∃ v ∈ p.versions, v.slug = p.default_version ∧ v.active = true then
        p.default_version
      else "latest" := by
  by_cases h : p.default_version = "latest"
  · simp [get_default_version, h]
  · have hb : (p.default_version == "latest") = false := by
      simpa using h
    by_cases he : ∃ v ∈ p.versions, v.slug = p.default_version ∧ v.active = true
    · have : (p.versions.filter
          (fun v => v.slug == p.default_version && v.active)).isEmpty = false := by
        rw [filter_isEmpty_eq_false]
        obtain ⟨v, hv, hs, ha⟩ := he
        exact ⟨v, hv, by simp [hs, ha]⟩
      simp [get_default_version, hb, this, h, he]
    · have : (p.versions.filter
          (fun v => v.slug == p.default_version && v.active)).isEmpty = true := by
        rw [← Bool.not_eq_false, filter_isEmpty_eq_false]
        rintro ⟨v, hv, hsa⟩
        exact he ⟨v, hv, by simpa using hsa⟩
      simp [get_default_version, hb, this, h, he]

/-- C7: add_subproject is an idempotent get-or-create on the
(parent, child) edge: when the edge is absent the first call creates it,
the second call returns the existing edge and leaves the table
unchanged, exactly one matching edge results, and remove_subproject on
an absent edge is a no-op. -/
theorem C7_subproject_edge_ops (rels : List ProjectRelationship)
    (parent child : Nat)
    (h : ProjectRelationship.mk parent child ∉ rels) :
    add_subproject rels parent child =
      (ProjectRelationship.mk parent child,
        rels ++ [ProjectRelationship.mk parent child]) ∧
    add_subproject (rels ++ [ProjectRelationship.mk parent child]) parent child =
      (ProjectRelationship.mk parent child,
        rels ++ [ProjectRelationship.mk parent child]) ∧
    ((rels ++ [ProjectRelationship.mk parent child]).filter
        (fun r => r.parent == parent && r.child == child)).length = 1 ∧
    remove_subproject rels parent child = rels := by
  have hmatch : ∀ r : ProjectRelationship,
      (r.parent == parent && r.child == child) = true ↔
        r = ProjectRelationship.mk parent child := by
    rintro ⟨a, b⟩
    simp [ProjectRelationship.mk.injEq]
  have hnone : rels.find?
      (fun r => r.parent == parent && r.child == child) = none := by
    rw [List.find?_eq_none]
    intro r hr hcon
    exact h (((hmatch r).mp hcon) ▸ hr)
  have hfilter : rels.filter
      (fun r => r.parent == parent && r.child == child) = [] := by
    rw [List.filter_eq_nil_iff]
    intro r hr hcon
    exact h (((hmatch r).mp hcon) ▸ hr)
  refine ⟨?_, ?_, ?_, ?_⟩
  · simp [add_subproject, hnone]
  · simp [add_subproject, List.find?_append, hnone]
  · simp [List.filter_append, hfilter]
  · rw [remove_subproject, List.filter_eq_self]
    intro r hr
    simp only [Bool.not_eq_true']
    exact Bool.eq_false_iff.mpr
      (fun hcon => h (((hmatch r).mp hcon) ▸ hr))

/-- C7 witness: the edge operations evaluated on the empty table and the
concrete edge 1 to 2. -/
theorem C7_witness :
    add_subproject [] 1 2 =
      (ProjectRelationship.mk 1 2, [ProjectRelationship.mk 1 2]) ∧
    add_subproject [ProjectRelationship.mk 1 2] 1 2 =
      (ProjectRelationship.mk 1 2, [ProjectRelationship.mk 1 2]) ∧
    (([ProjectRelationship.mk 1 2]).filter
        (fun r => r.parent == 1 && r.child == 2)).length = 1 ∧
    remove_subproject [] 1 2 = [] :=
  C7_subproject_edge_ops [] 1 2 (by decide)

/-- C8: saving a project whose slug is empty and whose name slugifies to
the empty string fails synchronously with the slug error; no row and no
grant is persisted (the error short-circuits before the store or the
permission assignment is reached). -/
theorem C8_save_empty_slug_error (slugify : String → String)
    (db : List Project) (grants : List Grant) (owners : List Nat)
    (p : Project) (hs : p.slug = "") (hn : slugify p.name = "") :
    save slugify db grants owners p = Except.error SaveError.slugRequired := by
  simp [save, hs, hn]

/-- A slugify collaborator behaving as django does on a symbols-only
name: every character is stripped. -/
def slugifyAllSymbols : String → String := fun _ => ""

/-- A project imported with a symbols-only name and no slug. -/
def symbolsProject : Project :=
  { baseProject with name := "!!!", slug := "" }

/-- C8 witness: the save of the symbols-only project fails with the slug
error. -/
theorem C8_witness :
    save slugifyAllSymbols [] [] [7] symbolsProject =
      Except.error SaveError.slugRequired :=
  C8_save_empty_slug_error slugifyAllSymbols [] [] [7] symbolsProject rfl rfl

/-- C2 counterexample: a per-object grant does leak a non-public project
into the public tier, so the result is not exactly the non-skipped
public projects regardless of grants.  grantedUser lacks the global
permission, yet the private project it is granted on is returned by the
public-tier query. -/
theorem C2_counterexample :
    grantedUser.has_global_view_perm = false ∧
    privProject ∈ public [pubProject, privProject] (some grantedUser) ∧
    privProject.privacy_level ≠ constants.PUBLIC := by
  decide

/-- C2 amended: for every user without the global view permission the
public-tier Visibility Filter returns exactly the non-skipped stored
projects that are public, together with, when the user is
authenticated, those the user holds a per-object view grant on. -/
theorem C2_public_tier_without_global_perm (db : List Project) (u : User)
    (p : Project) (hg : u.has_global_view_perm = false) :
    p ∈ public db (some u) ↔
      p ∈ db ∧ p.skip = false ∧
        (p.privacy_level = constants.PUBLIC ∨
          (u.is_authenticated = true ∧ p.id ∈ u.granted_view)) := by
  unfold public _filter_queryset get_objects_for_user
  cases hau : u.is_authenticated
  all_goals simp [hg, hau, List.mem_filter, List.mem_append, contains_iff_mem]
  all_goals tauto

/-- C2 witness: the amended characterization evaluated on the concrete
database and the authenticated user without the global permission. -/
theorem C2_witness :
    pubProject ∈ public [pubProject, privProject] (some grantedUser) :=
  (C2_public_tier_without_global_perm [pubProject, privProject]
    grantedUser pubProject rfl).mpr (by decide)

/-- C3: an authenticated user holding the per-object view grant on a
non-skipped private project (as its owner does, the grant being assigned
on every save) sees that project in the public-tier result, while the
anonymous public-tier query excludes it. -/
theorem C3_ownership_grant_overrides_public_tier (db : List Project)
    (u : User) (p : Project) (hmem : p ∈ db) (hskip : p.skip = false)
    (hpriv : p.privacy_level = constants.PRIVATE)
    (hauth : u.is_authenticated = true) (hgrant : p.id ∈ u.granted_view) :
    p ∈ public db (some u) ∧ p ∉ public db none := by
  constructor
  · unfold public _filter_queryset get_objects_for_user
    cases hga : u.has_global_view_perm <;>
      simp [hga, hauth, List.mem_filter, List.mem_append, contains_iff_mem,
        hskip] <;> tauto
  · intro hcon
    simp only [public, _filter_queryset] at hcon
    simp [List.mem_filter, contains_iff_mem, hpriv] at hcon
    exact absurd hcon.2 (by decide)

/-- C3 witness: the granted user sees the private project in the public
tier and the anonymous user does not, on the concrete database. -/
theorem C3_witness :
    privProject ∈ public [pubProject, privProject] (some grantedUser) ∧
    privProject ∉ public [pubProject, privProject] none :=
  C3_ownership_grant_overrides_public_tier [pubProject, privProject]
    grantedUser privProject (by decide) (by decide) (by decide) (by decide)
    (by decide)

/-- conf_file without an explicit conf_py_file: the searched file list
(the rendered-docs search, falling back to the full checkout when that
is empty) drives the outcome. -/
theorem conf_file_no_explicit (s : Settings) (p : Project) (version : String)
    (findRes fullFindRes : List String) (hconf : p.conf_py_file = "") :
    conf_file s p version findRes fullFindRes =
      match (if findRes.isEmpty then fullFindRes else findRes) with
      | [] => Except.error ProjectImportError.confFileMissing
      | [f] => Except.ok (some f)
      | _ :: _ :: _ =>
        Except.ok ((if findRes.isEmpty then fullFindRes else findRes).find?
          (fun g => py_find_from g "doc" 70)) := by
  unfold conf_file
  rw [hconf]
  rfl

/-- A checkout path whose doc segment starts only at character index 71
(the first 70 characters are filler). -/
def deepDocPath : String :=
  "aaaaaaaaaaaaaaaaaaaaaaaaaaaaaaaaaaaaaaaaaaaaaaaaaaaaaaaaaaaaaaaaaaaaaa/docs/conf.py"

/-- C5 counterexample: with two matches foo/docs/conf.py and
foo/src/conf.py, the first of which has doc well within the first 70
characters, the tie-break of the source (str.find with start 70) matches
nothing and conf_file returns None rather than the docs path the claim
promises. -/
theorem C5_counterexample :
    spec_doc_within_first_70 "foo/docs/conf.py" = true ∧
    conf_file someSettings baseProject "latest"
      ["foo/docs/conf.py", "foo/src/conf.py"] [] = Except.ok none := by
  decide

/-- C5 amended: with conf_py_file unset the resolver searches the
rendered-docs subtree and falls back to the full checkout when that is
empty; a single match is returned; with several matches the first one
whose path contains doc at or after character index 70 is returned (and
None when no match qualifies); with no match it fails with
ProjectImportError. -/
theorem C5_conf_file_resolution (s : Settings) (p : Project)
    (version : String) (findRes fullFindRes : List String)
    (hconf : p.conf_py_file = "") :
    (findRes = [] → fullFindRes = [] →
      conf_file s p version findRes fullFindRes =
        Except.error ProjectImportError.confFileMissing) ∧
    (∀ f, (if findRes.isEmpty then fullFindRes else findRes) = [f] →
      conf_file s p version findRes fullFindRes = Except.ok (some f)) ∧
    (2 ≤ (if findRes.isEmpty then fullFindRes else findRes).length →
      conf_file s p version findRes fullFindRes =
        Except.ok ((if findRes.isEmpty then fullFindRes else findRes).find?
          (fun g => py_find_from g "doc" 70))) := by
  rw [conf_file_no_explicit s p version findRes fullFindRes hconf]
  refine ⟨?_, ?_, ?_⟩
  · rintro rfl rfl
    rfl
  · intro f hf
    rw [hf]
  · intro h2
    cases hl : (if findRes.isEmpty then fullFindRes else findRes) with
    | nil => rw [hl] at h2; simp at h2
    | cons a t =>
      cases t with
      | nil => rw [hl] at h2; simp at h2
      | cons b t2 => rfl

/-- C5 witness: with two matches, the one with doc at index 71 is
selected over the one whose doc segment sits inside the first 70
characters. -/
theorem C5_witness :
    conf_file someSettings baseProject "latest"
      [deepDocPath, "foo/src/conf.py"] [] = Except.ok (some deepDocPath) :=
  (((C5_conf_file_resolution someSettings baseProject "latest"
      [deepDocPath, "foo/src/conf.py"] [] rfl).2.2) (by decide)).trans
    (by decide)

/-- C10: with conf_py_file unset, when the search yields several matches
and none of them has doc at or after character index 70, conf_file
returns None rather than raising; the ProjectImportError is raised
exactly when the search yields no match at all. -/
theorem C10_conf_file_multi_match_none (s : Settings) (p : Project)
    (version : String) (findRes fullFindRes : List String)
    (hconf : p.conf_py_file = "") :
    (2 ≤ (if findRes.isEmpty then fullFindRes else findRes).length →
      (∀ f ∈ (if findRes.isEmpty then fullFindRes else findRes),
        py_find_from f "doc" 70 = false) →
      conf_file s p version findRes fullFindRes = Except.ok none) ∧
    (conf_file s p version findRes fullFindRes =
        Except.error ProjectImportError.confFileMissing ↔
      findRes = [] ∧ fullFindRes = []) := by
  rw [conf_file_no_explicit s p version findRes fullFindRes hconf]
  constructor
  · intro h2 hnone
    cases hl : (if findRes.isEmpty then fullFindRes else findRes) with
    | nil => rw [hl] at h2; simp at h2
    | cons a t =>
      cases t with
      | nil => rw [hl] at h2; simp at h2
      | cons b t2 =>
        rw [hl] at hnone
        have hfind : (a :: b :: t2).find?
            (fun g => py_find_from g "doc" 70) = none := by
          rw [List.find?_eq_none]
          intro x hx
          simp [hnone x hx]
        simp [hfind]
  · cases hl : (if findRes.isEmpty then fullFindRes else findRes) with
    | nil =>
      constructor
      · intro _
        cases hres : findRes with
        | nil =>
          refine ⟨rfl, ?_⟩
          rw [hres] at hl
          simpa using hl
        | cons a t =>
          rw [hres] at hl
          simp at hl
      · intro _
        rfl
    | cons a t =>
      constructor
      · intro hcon
        cases t with
        | nil => exact absurd hcon (by simp)
        | cons b t2 => exact absurd hcon (by simp)
      · rintro ⟨h1, h2⟩
        rw [h1, h2] at hl
        simp at hl

/-- C10 witness: two short matches, neither with doc at or after index
70, give None; an empty search raises the import error. -/
theorem C10_witness :
    conf_file someSettings baseProject "latest"
      ["bar/docs/conf.py", "bar/src/conf.py"] [] = Except.ok none ∧
    conf_file someSettings baseProject "latest" [] [] =
      Except.error ProjectImportError.confFileMissing := by
  constructor
  · exact (C10_conf_file_multi_match_none someSettings baseProject "latest"
      ["bar/docs/conf.py", "bar/src/conf.py"] [] rfl).1 (by decide) (by decide)
  · exact (C10_conf_file_multi_match_none someSettings baseProject "latest"
      [] [] rfl).2.mpr ⟨rfl, rfl⟩

/-- C6: get_default_branch returns the explicitly set default_branch;
otherwise it returns the fallback branch of the backend the registry
resolves for repo_type, and fails (the unsupported-backend failure) when
the registry has no backend for repo_type. -/
theorem C6_get_default_branch_spec
    (backend_cls : String → Option VcsBackend) (p : Project) :
    (∀ b, p.default_branch = some b → b ≠ "" →
      get_default_branch backend_cls p = Except.ok b) ∧
    (py_truthy_str p.default_branch = false →
      ∀ be, backend_cls p.repo_type = some be →
        get_default_branch backend_cls p = Except.ok be.fallback_branch) ∧
    (py_truthy_str p.default_branch = false →
      backend_cls p.repo_type = none →
        get_default_branch backend_cls p =
          Except.error VcsError.unsupportedBackend) := by
  refine ⟨?_, ?_, ?_⟩
  · intro b hb hne
    have ht : py_truthy_str (some b) = true := by
      simp [py_truthy_str, hne]
    simp [get_default_branch, hb, ht]
  · intro ht be hbe
    simp [get_default_branch, ht, vcs_repo, hbe]
  · intro ht hbe
    simp [get_default_branch, ht, vcs_repo, hbe]

/-- The git backend with its fallback branch, as the backend registry
would resolve it. -/
def gitBackend : VcsBackend := { fallback_branch := "master" }

/-- A registry that only knows the git backend. -/
def onlyGitRegistry : String → Option VcsBackend :=
  fun t => if t = "git" then some gitBackend else none

/-- A project with an explicit default branch. -/
def branchProject : Project :=
  { baseProject with default_branch := some "dev" }

/-- A project whose repo_type has no registered backend. -/
def cvsProject : Project :=
  { baseProject with repo_type := "cvs" }

/-- C6 witness: the three branch-resolution behaviors evaluated against
the git-only registry. -/
theorem C6_witness :
    get_default_branch onlyGitRegistry branchProject = Except.ok "dev" ∧
    get_default_branch onlyGitRegistry baseProject = Except.ok "master" ∧
    get_default_branch onlyGitRegistry cvsProject =
      Except.error VcsError.unsupportedBackend := by
  refine ⟨?_, ?_, ?_⟩
  · exact (C6_get_default_branch_spec onlyGitRegistry branchProject).1 "dev"
      rfl (by decide)
  · exact (C6_get_default_branch_spec onlyGitRegistry baseProject).2.1 rfl
      gitBackend (by decide)
  · exact (C6_get_default_branch_spec onlyGitRegistry cvsProject).2.2 rfl
      (by decide)

/-- A nonempty string has nonempty character data. -/
theorem data_ne_nil {s : String} (h : s ≠ "") : s.data ≠ [] :=
  fun hd => h (String.ext hd)

/-- startsWithSlash looks only at the first character, which appending
on the right cannot change for a nonempty string. -/
theorem startsWithSlash_append (a b : String) (ha : a ≠ "") :
    startsWithSlash (a ++ b) = startsWithSlash a := by
  unfold startsWithSlash
  rw [String.data_append]
  cases hd : a.data with
  | nil => exact absurd hd (data_ne_nil ha)
  | cons c t => simp

/-- endsWithSlash looks only at the last character, which appending on
the left cannot change for a nonempty right part. -/
theorem endsWithSlash_append (a b : String) (hb : b ≠ "") :
    endsWithSlash (a ++ b) = endsWithSlash b := by
  unfold endsWithSlash
  rw [String.data_append, List.getLast?_append]
  cases hd : b.data.getLast? with
  | none => exact absurd (List.getLast?_eq_none_iff.mp hd) (data_ne_nil hb)
  | some c => simp [hd]

/-- Appending a nonempty string yields a nonempty string. -/
theorem append_ne_empty_of_right (a b : String) (hb : b ≠ "") :
    a ++ b ≠ "" := by
  intro h
  have hd := congrArg String.data h
  rw [String.data_append] at hd
  exact data_ne_nil hb (List.append_eq_nil.mp hd).2

/-- os.path.join inserts exactly one separator when the left part is
nonempty without a trailing slash and the right part has no leading
slash. -/
theorem os_path_join2_eq (a b : String) (ha : a ≠ "")
    (hae : endsWithSlash a = false) (hbs : startsWithSlash b = false) :
    os_path_join2 a b = a ++ "/" ++ b := by
  have ha' : (a == "") = false := by simpa using ha
  simp [os_path_join2, hbs, ha', hae]

/-- The four-component media join under sane components: no leading
slash on appended components, no trailing slash or emptiness to the
left. -/
theorem os_path_join_media_layout (root kind slug ver fname : String)
    (hroot : root ≠ "") (hroote : endsWithSlash root = false)
    (hk1 : startsWithSlash kind = false) (hk2 : endsWithSlash kind = false)
    (hk3 : kind ≠ "")
    (hs1 : startsWithSlash slug = false) (hs2 : endsWithSlash slug = false)
    (hs3 : slug ≠ "")
    (hv1 : startsWithSlash ver = false) (hv2 : endsWithSlash ver = false)
    (hv3 : ver ≠ "")
    (hf1 : startsWithSlash fname = false) :
    os_path_join root [kind, slug, ver, fname] =
      root ++ "/" ++ kind ++ "/" ++ slug ++ "/" ++ ver ++ "/" ++ fname := by
  unfold os_path_join
  simp only [List.foldl_cons, List.foldl_nil]
  rw [os_path_join2_eq root kind hroot hroote hk1]
  rw [os_path_join2_eq _ slug (append_ne_empty_of_right _ _ hk3)
    (by rw [endsWithSlash_append _ _ hk3]; exact hk2) hs1]
  rw [os_path_join2_eq _ ver (append_ne_empty_of_right _ _ hs3)
    (by rw [endsWithSlash_append _ _ hs3]; exact hs2) hv1]
  rw [os_path_join2_eq _ fname (append_ne_empty_of_right _ _ hv3)
    (by rw [endsWithSlash_append _ _ hv3]; exact hv2) hf1]

/-- A project whose name has a space, so that doc_name differs from the
slug. -/
def spacedNameProject : Project :=
  { baseProject with id := 9, name := "My Project", slug := "my-project" }

/-- C9 counterexample: for a project named My Project with slug
my-project, the dash artifact path ends in My_Project.tgz, not in the
slug-derived my-project.tgz the claim requires of every media
accessor. -/
theorem C9_counterexample :
    get_dash_path someSettings spacedNameProject "latest" ≠
      os_path_join someSettings.MEDIA_ROOT
        ["dash", spacedNameProject.slug, "latest",
          spacedNameProject.slug ++ ".tgz"] := by
  decide

/-- C9 amended: every media artifact accessor produces
mediaRoot/kind/slug/version/file; the final filename component is
slug.ext for pdf, epub, man and htmlzip, but doc_name.tgz (the project
name with spaces replaced by underscores, not the slug) for dash. -/
theorem C9_media_artifact_layout (s : Settings) (p : Project) (v : String)
    (hr1 : s.MEDIA_ROOT ≠ "") (hr2 : endsWithSlash s.MEDIA_ROOT = false)
    (hs1 : startsWithSlash p.slug = false)
    (hs2 : endsWithSlash p.slug = false) (hs3 : p.slug ≠ "")
    (hv1 : startsWithSlash v = false) (hv2 : endsWithSlash v = false)
    (hv3 : v ≠ "")
    (hn1 : startsWithSlash (doc_name p) = false) (hn3 : doc_name p ≠ "") :
    get_pdf_path s p v =
      s.MEDIA_ROOT ++ "/" ++ "pdf" ++ "/" ++ p.slug ++ "/" ++ v ++ "/" ++
        (p.slug ++ ".pdf") ∧
    get_epub_path s p v =
      s.MEDIA_ROOT ++ "/" ++ "epub" ++ "/" ++ p.slug ++ "/" ++ v ++ "/" ++
        (p.slug ++ ".epub") ∧
    get_manpage_path s p v =
      s.MEDIA_ROOT ++ "/" ++ "man" ++ "/" ++ p.slug ++ "/" ++ v ++ "/" ++
        (p.slug ++ ".1") ∧
    get_htmlzip_path s p v =
      s.MEDIA_ROOT ++ "/" ++ "htmlzip" ++ "/" ++ p.slug ++ "/" ++ v ++ "/" ++
        (p.slug ++ ".zip") ∧
    get_dash_path s p v =
      s.MEDIA_ROOT ++ "/" ++ "dash" ++ "/" ++ p.slug ++ "/" ++ v ++ "/" ++
        (doc_name p ++ ".tgz") := by
  have hslugext : ∀ ext : String, startsWithSlash (p.slug ++ ext) = false := by
    intro ext
    rw [startsWithSlash_append _ _ hs3]
    exact hs1
  have hnameext : startsWithSlash (doc_name p ++ ".tgz") = false := by
    rw [startsWithSlash_append _ _ hn3]
    exact hn1
  refine ⟨?_, ?_, ?_, ?_, ?_⟩
  · exact os_path_join_media_layout s.MEDIA_ROOT "pdf" p.slug v
      (p.slug ++ ".pdf") hr1 hr2 (by decide) (by decide) (by decide)
      hs1 hs2 hs3 hv1 hv2 hv3 (hslugext ".pdf")
  · exact os_path_join_media_layout s.MEDIA_ROOT "epub" p.slug v
      (p.slug ++ ".epub") hr1 hr2 (by decide) (by decide) (by decide)
      hs1 hs2 hs3 hv1 hv2 hv3 (hslugext ".epub")
  · exact os_path_join_media_layout s.MEDIA_ROOT "man" p.slug v
      (p.slug ++ ".1") hr1 hr2 (by decide) (by decide) (by decide)
      hs1 hs2 hs3 hv1 hv2 hv3 (hslugext ".1")
  · exact os_path_join_media_layout s.MEDIA_ROOT "htmlzip" p.slug v
      (p.slug ++ ".zip") hr1 hr2 (by decide) (by decide) (by decide)
      hs1 hs2 hs3 hv1 hv2 hv3 (hslugext ".zip")
  · exact os_path_join_media_layout s.MEDIA_ROOT "dash" p.slug v
      (doc_name p ++ ".tgz") hr1 hr2 (by decide) (by decide) (by decide)
      hs1 hs2 hs3 hv1 hv2 hv3 hnameext

/-- C9 witness: the amended layout evaluated on concrete settings, the
base project and the latest version. -/
theorem C9_witness :
    get_pdf_path someSettings baseProject "latest" =
      someSettings.MEDIA_ROOT ++ "/" ++ "pdf" ++ "/" ++ baseProject.slug ++
        "/" ++ "latest" ++ "/" ++ (baseProject.slug ++ ".pdf") ∧
    get_epub_path someSettings baseProject "latest" =
      someSettings.MEDIA_ROOT ++ "/" ++ "epub" ++ "/" ++ baseProject.slug ++
        "/" ++ "latest" ++ "/" ++ (baseProject.slug ++ ".epub") ∧
    get_manpage_path someSettings baseProject "latest" =
      someSettings.MEDIA_ROOT ++ "/" ++ "man" ++ "/" ++ baseProject.slug ++
        "/" ++ "latest" ++ "/" ++ (baseProject.slug ++ ".1") ∧
    get_htmlzip_path someSettings baseProject "latest" =
      someSettings.MEDIA_ROOT ++ "/" ++ "htmlzip" ++ "/" ++ baseProject.slug ++
        "/" ++ "latest" ++ "/" ++ (baseProject.slug ++ ".zip") ∧
    get_dash_path someSettings baseProject "latest" =
      someSettings.MEDIA_ROOT ++ "/" ++ "dash" ++ "/" ++ baseProject.slug ++
        "/" ++ "latest" ++ "/" ++ (doc_name baseProject ++ ".tgz") :=
  C9_media_artifact_layout someSettings baseProject "latest" (by decide)
    (by decide) (by decide) (by decide) (by decide) (by decide) (by decide)
    (by decide) (by decide) (by decide)

end RTD
